import Mathlib

/-!
Verification development for the NaloGO client (Python library `nalogo` for the
Russian "Мой налог" self-employment tax service). The repository ships demo
scripts (`demo.py`, `examples/async_example.py`); the client engine itself is
specified in `spec.md` and is modelled here from that specification: exact
decimal arithmetic, the income domain model with eager validation, the token
bundle round trip, the single-flight refresh discipline, the refresh-and-retry
policy of the API facade, and receipt operations.
-/

namespace NaloGO

/-- Modelled from the spec: exact-decimal value type (Python `decimal.Decimal`)
used for `amount` and `quantity`.  A value is a signed integer coefficient
scaled by a power of ten, exactly as Python represents decimals; no floating
point is involved anywhere (§4.1 of the spec). -/
structure Decimal where
  coeff : Int
  exp : Int
deriving DecidableEq, Repr

/-- Modelled from the spec: exact decimal multiplication (coefficients multiply,
exponents add), never float conversion. -/
def Decimal.mul (a b : Decimal) : Decimal :=
  ⟨a.coeff * b.coeff, a.exp + b.exp⟩

/-- The exact rational value denoted by a decimal. -/
def Decimal.toRat (d : Decimal) : ℚ :=
  (d.coeff : ℚ) * (10 : ℚ) ^ d.exp

/-- Modelled from the spec: the `> 0` comparison performed in decimal
arithmetic (sign of the coefficient), not floating point. -/
def Decimal.isPositive (d : Decimal) : Bool :=
  0 < d.coeff

theorem Decimal.toRat_mul (a b : Decimal) :
    (a.mul b).toRat = a.toRat * b.toRat := by
  simp only [Decimal.mul, Decimal.toRat]
  rw [zpow_add₀ (by norm_num : (10 : ℚ) ≠ 0)]
  push_cast
  ring

theorem Decimal.isPositive_iff (d : Decimal) :
    d.isPositive = true ↔ 0 < d.toRat := by
  have hp : (0 : ℚ) < (10 : ℚ) ^ d.exp := zpow_pos (by norm_num) _
  simp only [Decimal.isPositive, Decimal.toRat, decide_eq_true_eq]
  constructor
  · intro h
    exact mul_pos (by exact_mod_cast h) hp
  · intro h
    by_contra hc
    push_neg at hc
    have : (d.coeff : ℚ) ≤ 0 := by exact_mod_cast hc
    nlinarith

/-- Modelled from the spec: the fields a `ValidationException` can name
(§4.1: the exception names the violated field). -/
inductive ValField where
  | name
  | amount
  | quantity
  | inn
deriving DecidableEq, Repr

/-- Modelled from the spec: the error taxonomy (§7): `ValidationException`,
`PhoneException`, `UnauthorizedException`, `DomainException` and the generic
transport failure. -/
inductive NalogoError where
  | validation (field : ValField)
  | phone
  | unauthorized
  | domain
  | transport
deriving DecidableEq, Repr

/-- Whitespace recognised by Python `str.strip`, used to trim service names. -/
def isSpaceChar (c : Char) : Bool :=
  c = ' ' || c = '\t' || c = '\n' || c = '\r' || c = '\x0b' || c = '\x0c'

/-- Python `str.strip`: drop whitespace from both ends. -/
def stripChars (s : List Char) : List Char :=
  ((s.dropWhile isSpaceChar).reverse.dropWhile isSpaceChar).reverse

/-- Modelled from the spec: name rule of §4.1 — trimmed length ≥ 1. -/
def validServiceName (s : List Char) : Bool :=
  0 < (stripChars s).length

/-- Modelled from the spec: `IncomeServiceItem` — one billable line with
name, amount and quantity (§3).  Strings are carried as character lists. -/
structure IncomeServiceItem where
  name : List Char
  amount : Decimal
  quantity : Decimal
deriving DecidableEq, Repr

/-- Modelled from the spec: eager validation at construction (§4.1) — the
smart constructor either yields a fully valid item or fails with a
`ValidationException` naming the violated field.  Rules: trimmed name length
≥ 1; amount > 0; quantity > 0, compared in decimal arithmetic. -/
def IncomeServiceItem.mk? (name : List Char) (amount quantity : Decimal) :
    Except NalogoError IncomeServiceItem :=
  if validServiceName name = false then
    Except.error (NalogoError.validation ValField.name)
  else if amount.isPositive = false then
    Except.error (NalogoError.validation ValField.amount)
  else if quantity.isPositive = false then
    Except.error (NalogoError.validation ValField.quantity)
  else
    Except.ok ⟨name, amount, quantity⟩

/-- Modelled from the spec: `get_total_amount()` — amount × quantity using
exact decimal multiplication, never float conversion (§4.1). -/
def IncomeServiceItem.get_total_amount (i : IncomeServiceItem) : Decimal :=
  i.amount.mul i.quantity

theorem mk?_ok_iff (name : List Char) (a q : Decimal) (i : IncomeServiceItem) :
    IncomeServiceItem.mk? name a q = Except.ok i ↔
      (validServiceName name = true ∧ a.isPositive = true ∧
        q.isPositive = true ∧ i = ⟨name, a, q⟩) := by
  unfold IncomeServiceItem.mk?
  rcases hn : validServiceName name <;>
    rcases ha : a.isPositive <;>
    rcases hq : q.isPositive <;>
    simp [hn, ha, hq, eq_comm]

/-- The service name of the demo scenario, `"Разработка сайта"`. -/
def demoSiteName : List Char :=
  ['Р', 'а', 'з', 'р', 'а', 'б', 'о', 'т', 'к', 'а', ' ', 'с', 'а', 'й', 'т', 'а']

/-- The service name `"Услуга"` used in the error-handling demo. -/
def demoUsluga : List Char := ['У', 'с', 'л', 'у', 'г', 'а']

/-- `Decimal("25000.00")`: coefficient 2500000 at exponent −2. -/
def dec25000_00 : Decimal := ⟨2500000, -2⟩

/-- `Decimal("1")`. -/
def dec1 : Decimal := ⟨1, 0⟩

/-- `Decimal("-100")`. -/
def decNeg100 : Decimal := ⟨-100, 0⟩

/-- C1: every successfully constructed `IncomeServiceItem` has
`get_total_amount() = amount * quantity` computed in exact decimal arithmetic
(the decimal product denotes exactly the product of the denoted rationals —
no float conversion at any point). -/
theorem C1_total_exact_decimal (name : List Char) (a q : Decimal)
    (i : IncomeServiceItem) (h : IncomeServiceItem.mk? name a q = Except.ok i) :
    i.get_total_amount = a.mul q ∧
      i.get_total_amount.toRat = a.toRat * q.toRat := by
  obtain ⟨-, -, -, rfl⟩ := (mk?_ok_iff name a q i).1 h
  exact ⟨rfl, Decimal.toRat_mul a q⟩

/-- C1 witness: the demo scenario
`IncomeServiceItem(name="Разработка сайта", amount=Decimal("25000.00"),
quantity=Decimal("1"))` constructs successfully and its total is exactly
`Decimal("25000.00")`. -/
theorem C1_total_exact_decimal_witness :
    (⟨NaloGO.demoSiteName, NaloGO.dec25000_00, NaloGO.dec1⟩ :
        IncomeServiceItem).get_total_amount = NaloGO.dec25000_00.mul NaloGO.dec1 ∧
    (⟨NaloGO.demoSiteName, NaloGO.dec25000_00, NaloGO.dec1⟩ :
        IncomeServiceItem).get_total_amount = NaloGO.dec25000_00 :=
  ⟨(C1_total_exact_decimal NaloGO.demoSiteName NaloGO.dec25000_00 NaloGO.dec1
      ⟨NaloGO.demoSiteName, NaloGO.dec25000_00, NaloGO.dec1⟩ rfl).1,
    by decide⟩

/-- C3: a name that is empty or consists only of whitespace is rejected —
for any amount and quantity, construction fails with a `ValidationException`
naming the `name` field. -/
theorem C3_blank_name_rejected (name : List Char)
    (h : name.all isSpaceChar = true) (a q : Decimal) :
    IncomeServiceItem.mk? name a q =
      Except.error (NalogoError.validation ValField.name) := by
  have h1 : name.dropWhile isSpaceChar = [] := by
    rw [List.dropWhile_eq_nil_iff]
    intro x hx
    exact List.all_eq_true.1 h x hx
  have hs : stripChars name = [] := by
    unfold stripChars
    simp [h1]
  have hv : validServiceName name = false := by
    simp [validServiceName, hs]
  unfold IncomeServiceItem.mk?
  simp [hv]

/-- C3 witness: the whitespace-only name `" "` (and in particular the demo's
empty name) fails validation regardless of amount and quantity. -/
theorem C3_blank_name_rejected_witness :
    IncomeServiceItem.mk? [' '] NaloGO.dec1 NaloGO.dec1 =
      Except.error (NalogoError.validation ValField.name) :=
  C3_blank_name_rejected [' '] (by decide) NaloGO.dec1 NaloGO.dec1

/-- C4: a non-positive amount or quantity (zero or negative, decided in exact
decimal arithmetic, consistent with the sign of the denoted rational value) is
rejected with a `ValidationException`, so no item with a non-positive amount
or quantity is ever observable. -/
theorem C4_nonpositive_rejected (name : List Char) (a q : Decimal)
    (h : a.isPositive = false ∨ q.isPositive = false) :
    (∃ f, IncomeServiceItem.mk? name a q =
        Except.error (NalogoError.validation f)) ∧
    (∀ i, IncomeServiceItem.mk? name a q ≠ Except.ok i) ∧
    ¬ (0 < a.toRat ∧ 0 < q.toRat) := by
  have hval : ∃ f, IncomeServiceItem.mk? name a q =
      Except.error (NalogoError.validation f) := by
    unfold IncomeServiceItem.mk?
    rcases hn : validServiceName name
    · exact ⟨ValField.name, by simp [hn]⟩
    · rcases ha : a.isPositive
      · exact ⟨ValField.amount, by simp [hn, ha]⟩
      · have hq2 : q.isPositive = false := by
          rcases h with ha2 | hq2
          · rw [ha2] at ha
            exact absurd ha (by decide)
          · exact hq2
        exact ⟨ValField.quantity, by simp [hn, ha, hq2]⟩
  refine ⟨hval, ?_, ?_⟩
  · intro i hi
    obtain ⟨f, hf⟩ := hval
    rw [hf] at hi
    exact Except.noConfusion hi
  · rintro ⟨hpa, hpq⟩
    rcases h with ha2 | hq2
    · rw [← Decimal.isPositive_iff] at hpa
      simp [ha2] at hpa
    · rw [← Decimal.isPositive_iff] at hpq
      simp [hq2] at hpq

/-- C4 witness: the demo's negative amount `Decimal("-100")` with quantity
`Decimal("1")` and name `"Услуга"` is rejected. -/
theorem C4_nonpositive_rejected_witness :
    (∃ f, IncomeServiceItem.mk? NaloGO.demoUsluga NaloGO.decNeg100 NaloGO.dec1 =
        Except.error (NalogoError.validation f)) ∧
    (∀ i, IncomeServiceItem.mk? NaloGO.demoUsluga NaloGO.decNeg100 NaloGO.dec1 ≠
        Except.ok i) ∧
    ¬ (0 < NaloGO.decNeg100.toRat ∧ 0 < NaloGO.dec1.toRat) :=
  C4_nonpositive_rejected NaloGO.demoUsluga NaloGO.decNeg100 NaloGO.dec1
    (Or.inl (by decide))

/-- Modelled from the spec: the income type of the payer — individual person
or legal entity (`IncomeType.FROM_INDIVIDUAL` / `IncomeType.FROM_LEGAL_ENTITY`
in the demos). -/
inductive IncomeType where
  | fromIndividual
  | fromLegalEntity
deriving DecidableEq, Repr

/-- Modelled from the spec: `IncomeClient` — the payer on a receipt: display
name, income type, tax ID (ИНН) and optional contact phone (§3). -/
structure IncomeClient where
  displayName : List Char
  incomeType : IncomeType
  inn : List Char
  contactPhone : Option (List Char)
deriving DecidableEq, Repr

/-- An ASCII decimal digit, as Python `str.isdigit` recognises for tax IDs. -/
def isDigitChar (c : Char) : Bool :=
  '0' ≤ c && c ≤ '9'

/-- Modelled from the spec: tax-ID rule of §4.1 — digits-only; length 10 must
pair with the legal-entity income type, length 12 with the individual income
type; any other length or pairing is invalid. -/
def validInn (inn : List Char) (t : IncomeType) : Bool :=
  inn.all isDigitChar &&
    ((inn.length = 10 && t = IncomeType.fromLegalEntity) ||
      (inn.length = 12 && t = IncomeType.fromIndividual))

/-- Modelled from the spec: eager validation of `IncomeClient` at construction
(§4.1): the tax ID must satisfy `validInn` for the given income type, else a
`ValidationException` naming the `inn` field is raised.  The spec gives no
concrete pattern for the optional contact phone, so that check is not modelled
here (no claim depends on it). -/
def IncomeClient.mk? (displayName : List Char) (t : IncomeType)
    (inn : List Char) (phone : Option (List Char)) :
    Except NalogoError IncomeClient :=
  if validInn inn t = false then
    Except.error (NalogoError.validation ValField.inn)
  else
    Except.ok ⟨displayName, t, inn, phone⟩

/-- C2: constructing an `IncomeClient` succeeds exactly when the tax ID is
digits-only and its length matches the income type — length 10 pairs only
with the legal-entity type, length 12 only with the individual type; any
other length (such as `inn = "123"`) or a length/type mismatch fails with a
`ValidationException` naming the `inn` field. -/
theorem C2_inn_length_type_pairing (dn : List Char) (t : IncomeType)
    (inn : List Char) (phone : Option (List Char)) :
    (IncomeClient.mk? dn t inn phone = Except.ok ⟨dn, t, inn, phone⟩ ↔
      (inn.all isDigitChar = true ∧
        ((inn.length = 10 ∧ t = IncomeType.fromLegalEntity) ∨
          (inn.length = 12 ∧ t = IncomeType.fromIndividual)))) ∧
    (¬ (inn.all isDigitChar = true ∧
        ((inn.length = 10 ∧ t = IncomeType.fromLegalEntity) ∨
          (inn.length = 12 ∧ t = IncomeType.fromIndividual))) →
      IncomeClient.mk? dn t inn phone =
        Except.error (NalogoError.validation ValField.inn)) := by
  have hiff : validInn inn t = true ↔
      (inn.all isDigitChar = true ∧
        ((inn.length = 10 ∧ t = IncomeType.fromLegalEntity) ∨
          (inn.length = 12 ∧ t = IncomeType.fromIndividual))) := by
    simp [validInn]
  constructor
  · rcases hv : validInn inn t
    · simp only [IncomeClient.mk?, hv]
      simp only [← hiff, hv]
      simp
    · simp only [IncomeClient.mk?, hv]
      simp only [← hiff, hv]
      simp
  · intro hneg
    rcases hv : validInn inn t
    · simp [IncomeClient.mk?, hv]
    · exact absurd (hiff.1 hv) hneg

/-- C2 witness: the demo's too-short tax ID `"123"` fails validation with a
`ValidationException`, whatever income type accompanies it. -/
theorem C2_inn_length_type_pairing_witness :
    IncomeClient.mk? [] IncomeType.fromIndividual ['1', '2', '3'] none =
      Except.error (NalogoError.validation ValField.inn) :=
  (C2_inn_length_type_pairing [] IncomeType.fromIndividual
    ['1', '2', '3'] none).2 (by decide)

/-- A minimal JSON value model: only the constructors the token bundle shape
of §6 needs (strings and objects with ordered fields). -/
inductive Json where
  | str (s : List Char)
  | obj (fields : List (List Char × Json))

/-- Field lookup in a JSON object (first match wins, as in a JSON parse). -/
def Json.get (k : List Char) : Json → Option Json
  | Json.obj fields => fields.lookup k
  | _ => none

/-- Extract a JSON string value. -/
def Json.asStr : Json → Option (List Char)
  | Json.str s => some s
  | _ => none

/-- Modelled from the spec: the taxpayer `Profile` embedded in a token —
tax ID, display name, email (§3, §6). -/
structure Profile where
  inn : List Char
  displayName : List Char
  email : List Char
deriving DecidableEq, Repr

/-- Modelled from the spec: the `Token` owned by the Session/Token Manager —
access token string, refresh token string and embedded profile (§3). -/
structure Token where
  token : List Char
  refreshToken : List Char
  profile : Profile
deriving DecidableEq, Repr

/-- The JSON key `"token"`. -/
def kToken : List Char := ['t', 'o', 'k', 'e', 'n']

/-- The JSON key `"refreshToken"`. -/
def kRefreshToken : List Char :=
  ['r', 'e', 'f', 'r', 'e', 's', 'h', 'T', 'o', 'k', 'e', 'n']

/-- The JSON key `"profile"`. -/
def kProfile : List Char := ['p', 'r', 'o', 'f', 'i', 'l', 'e']

/-- The JSON key `"inn"`. -/
def kInn : List Char := ['i', 'n', 'n']

/-- The JSON key `"displayName"`. -/
def kDisplayName : List Char :=
  ['d', 'i', 's', 'p', 'l', 'a', 'y', 'N', 'a', 'm', 'e']

/-- The JSON key `"email"`. -/
def kEmail : List Char := ['e', 'm', 'a', 'i', 'l']

/-- Modelled from the spec: the persisted-storage (and authenticate-input)
JSON shape of a token bundle,
`{"token", "refreshToken", "profile": {"inn", "displayName", "email"}}`
(§6; the exact shape of `fake_token` in `demo.py`). -/
def dumpToken (t : Token) : Json :=
  Json.obj
    [(kToken, Json.str t.token),
      (kRefreshToken, Json.str t.refreshToken),
      (kProfile,
        Json.obj
          [(kInn, Json.str t.profile.inn),
            (kDisplayName, Json.str t.profile.displayName),
            (kEmail, Json.str t.profile.email)])]

/-- Modelled from the spec: restoring a token bundle reads the same JSON
shape `dumpToken` writes (§4.2 persistence, §6 round-trip contract). -/
def parseToken (j : Json) : Option Token := do
  let tok ← j.get kToken >>= Json.asStr
  let rtok ← j.get kRefreshToken >>= Json.asStr
  let prof ← j.get kProfile
  let inn ← prof.get kInn >>= Json.asStr
  let dn ← prof.get kDisplayName >>= Json.asStr
  let em ← prof.get kEmail >>= Json.asStr
  pure ⟨tok, rtok, ⟨inn, dn, em⟩⟩

/-- C5: the token-bundle write-then-read round trip is the identity — for
every token, persisting it with `dumpToken` and restoring with `parseToken`
reproduces the identical token/refreshToken/profile triple (the persisted
format and the authenticate-input format are one and the same shape). -/
theorem C5_token_bundle_roundtrip (t : Token) :
    parseToken (dumpToken t) = some t := by
  rfl

/-- Modelled from the spec: the observable refresh state of the Session/Token
Manager in the cooperative asynchronous model (§5): whether a refresh is in
flight, how many refresh-token exchanges have been issued to the remote
service, and how many callers are awaiting the in-flight refresh. -/
structure MgrState where
  refreshInFlight : Bool
  refreshCalls : Nat
  waiters : Nat
deriving DecidableEq, Repr

/-- Modelled from the spec: one caller encountering an expired token requests
a refresh (§4.2, §5).  Single-flight discipline: if a refresh is already in
progress the caller awaits its outcome (joins the waiters) instead of issuing
a second exchange; otherwise it starts the refresh, issuing exactly one
exchange to the remote service.  Each such step is atomic in the cooperative
scheduler (suspension points are only the network-bound calls). -/
def requestRefresh (s : MgrState) : MgrState :=
  if s.refreshInFlight then
    ⟨true, s.refreshCalls, s.waiters + 1⟩
  else
    ⟨true, s.refreshCalls + 1, s.waiters⟩

theorem requestRefresh_inflight (s : MgrState) (h : s.refreshInFlight = true)
    (k : Nat) :
    (requestRefresh^[k] s).refreshInFlight = true ∧
    (requestRefresh^[k] s).refreshCalls = s.refreshCalls ∧
    (requestRefresh^[k] s).waiters = s.waiters + k := by
  induction k generalizing s with
  | zero => simp [h]
  | succ n ih =>
    rw [Function.iterate_succ_apply]
    have hstep : requestRefresh s = ⟨true, s.refreshCalls, s.waiters + 1⟩ := by
      simp [requestRefresh, h]
    rw [hstep]
    obtain ⟨h1, h2, h3⟩ := ih ⟨true, s.refreshCalls, s.waiters + 1⟩ rfl
    dsimp only at h2 h3
    refine ⟨h1, h2, ?_⟩
    rw [h3]
    omega

/-- C6: single-flight refresh — if `N ≥ 1` concurrent operations against one
Session/Token Manager each encounter an expired token and request a refresh,
exactly one refresh-token exchange is issued to the remote service, and the
other `N − 1` callers await that refresh's outcome instead of issuing their
own. -/
theorem C6_refresh_single_flight (s : MgrState)
    (hs : s.refreshInFlight = false) (N : Nat) (hN : 1 ≤ N) :
    (requestRefresh^[N] s).refreshCalls = s.refreshCalls + 1 ∧
    (requestRefresh^[N] s).waiters = s.waiters + (N - 1) := by
  obtain ⟨n, rfl⟩ : ∃ n, N = n + 1 := ⟨N - 1, by omega⟩
  rw [Function.iterate_succ_apply]
  have hstep : requestRefresh s = ⟨true, s.refreshCalls + 1, s.waiters⟩ := by
    simp [requestRefresh, hs]
  rw [hstep]
  obtain ⟨-, h2, h3⟩ :=
    requestRefresh_inflight ⟨true, s.refreshCalls + 1, s.waiters⟩ rfl n
  dsimp only at h2 h3
  refine ⟨h2, ?_⟩
  rw [h3]
  omega

/-- C6 witness: three concurrent expired-token encounters starting from an
idle manager issue exactly one remote refresh call and leave two waiters. -/
theorem C6_refresh_single_flight_witness :
    (requestRefresh^[3] ⟨false, 0, 0⟩).refreshCalls =
      MgrState.refreshCalls ⟨false, 0, 0⟩ + 1 ∧
    (requestRefresh^[3] ⟨false, 0, 0⟩).waiters =
      MgrState.waiters ⟨false, 0, 0⟩ + (3 - 1) :=
  C6_refresh_single_flight ⟨false, 0, 0⟩ rfl 3 (by decide)

/-- Modelled from the spec: what one transport attempt can report back to the
API Facade (§4.4, §7): success, an authorization failure, or any other
(domain/transport) failure. -/
inductive TransportOutcome where
  | success
  | authFailure
  | otherFailure
deriving DecidableEq, Repr

/-- Modelled from the spec: the observable trace of one facade operation —
how many `refresh()` attempts the Session/Token Manager made, how many times
the original call went to the transport, and the final result. -/
structure OpTrace where
  refreshAttempts : Nat
  transportAttempts : Nat
  result : Except NalogoError Unit
deriving Repr

/-- Modelled from the spec: the retry policy of every API Facade operation
(§4.4): on an authorization failure from the transport, trigger exactly one
`refresh()` and retry the original call exactly once; a second authorization
failure is surfaced as `UnauthorizedException` with no further refresh or
retry.  The `transport` argument gives the outcome of each numbered attempt. -/
def runFacadeOp (transport : Nat → TransportOutcome) : OpTrace :=
  match transport 0 with
  | TransportOutcome.success => ⟨0, 1, Except.ok ()⟩
  | TransportOutcome.otherFailure => ⟨0, 1, Except.error NalogoError.transport⟩
  | TransportOutcome.authFailure =>
    match transport 1 with
    | TransportOutcome.success => ⟨1, 2, Except.ok ()⟩
    | TransportOutcome.otherFailure =>
        ⟨1, 2, Except.error NalogoError.transport⟩
    | TransportOutcome.authFailure =>
        ⟨1, 2, Except.error NalogoError.unauthorized⟩

/-- C7: when the transport reports an authorization failure, the facade
operation performs exactly one refresh attempt and exactly one retry (two
transport attempts in total); if the retry fails with an authorization
failure again, `UnauthorizedException` is raised and no further refresh or
retry occurs. -/
theorem C7_refresh_and_retry_once (transport : Nat → TransportOutcome)
    (h : transport 0 = TransportOutcome.authFailure) :
    (runFacadeOp transport).refreshAttempts = 1 ∧
    (runFacadeOp transport).transportAttempts = 2 ∧
    (transport 1 = TransportOutcome.authFailure →
      (runFacadeOp transport).result =
        Except.error NalogoError.unauthorized) := by
  rcases h1 : transport 1 <;> simp [runFacadeOp, h, h1]

/-- C7 witness: a transport that always reports authorization failures leads
to one refresh, one retry and `UnauthorizedException`. -/
theorem C7_refresh_and_retry_once_witness :
    (runFacadeOp fun _ => TransportOutcome.authFailure).refreshAttempts = 1 ∧
    (runFacadeOp fun _ => TransportOutcome.authFailure).transportAttempts = 2 ∧
    ((fun _ => TransportOutcome.authFailure) 1 = TransportOutcome.authFailure →
      (runFacadeOp fun _ => TransportOutcome.authFailure).result =
        Except.error NalogoError.unauthorized) :=
  C7_refresh_and_retry_once (fun _ => TransportOutcome.authFailure) rfl

/-- Modelled from the spec: `Income.create(name, amount, quantity)` (§4.4) —
validates its inputs via the §4.1 smart constructor before transmission.  The
second component counts network calls issued: a validation failure is raised
synchronously, before any network call (count 0); a well-formed request is
transmitted (count 1). -/
def Income.create (name : List Char) (amount quantity : Decimal) :
    Except NalogoError Unit × Nat :=
  match IncomeServiceItem.mk? name amount quantity with
  | Except.error e => (Except.error e, 0)
  | Except.ok _ => (Except.ok (), 1)

/-- Validate a list of raw service-item inputs via the §4.1 smart
constructor, stopping at the first violation. -/
def validateItems :
    List (List Char × Decimal × Decimal) →
      Except NalogoError (List IncomeServiceItem)
  | [] => Except.ok []
  | (n, a, q) :: rest => do
      let i ← IncomeServiceItem.mk? n a q
      let tail ← validateItems rest
      pure (i :: tail)

/-- Modelled from the spec: `Income.create_multiple_items(items)` (§4.4) —
validates every item before transmission; the second component counts network
calls as in `Income.create`. -/
def Income.create_multiple_items
    (items : List (List Char × Decimal × Decimal)) :
    Except NalogoError Unit × Nat :=
  match validateItems items with
  | Except.error e => (Except.error e, 0)
  | Except.ok _ => (Except.ok (), 1)

/-- C8: an income `create` or `create_multiple_items` call with invalid
inputs fails with the `ValidationException` raised by validation and issues
zero network calls — the invalid request never reaches the remote service. -/
theorem C8_validation_before_network :
    (∀ name a q f,
      IncomeServiceItem.mk? name a q =
          Except.error (NalogoError.validation f) →
        Income.create name a q =
          (Except.error (NalogoError.validation f), 0)) ∧
    (∀ items f,
      validateItems items = Except.error (NalogoError.validation f) →
        Income.create_multiple_items items =
          (Except.error (NalogoError.validation f), 0)) := by
  constructor
  · intro name a q f h
    simp [Income.create, h]
  · intro items f h
    simp [Income.create_multiple_items, h]

/-- C8 witness: an empty service name makes `create` fail before any network
call, and a whitespace-only name inside a list makes `create_multiple_items`
fail before any network call. -/
theorem C8_validation_before_network_witness :
    Income.create [] NaloGO.dec1 NaloGO.dec1 =
      (Except.error (NalogoError.validation ValField.name), 0) ∧
    Income.create_multiple_items [([' '], NaloGO.dec1, NaloGO.dec1)] =
      (Except.error (NalogoError.validation ValField.name), 0) :=
  ⟨C8_validation_before_network.1 [] NaloGO.dec1 NaloGO.dec1 ValField.name rfl,
    C8_validation_before_network.2 [([' '], NaloGO.dec1, NaloGO.dec1)]
      ValField.name rfl⟩

/-- The remote lifecycle state of one receipt (§3): issued by a successful
income submission, or cancelled. -/
inductive ReceiptStatus where
  | issued
  | cancelled
deriving DecidableEq, Repr

/-- The remote service's view of receipts, by UUID. -/
def RemoteReceipts : Type := List Char → Option ReceiptStatus

/-- Modelled from the spec: receipt cancellation by UUID (§4.4): cancelling
an issued receipt invalidates it; cancelling an already-cancelled receipt is
idempotent — it reports the existing cancelled state rather than erroring. -/
def cancel_receipt (r : RemoteReceipts) (u : List Char) :
    RemoteReceipts × Except NalogoError ReceiptStatus :=
  match r u with
  | none => (r, Except.error NalogoError.domain)
  | some ReceiptStatus.cancelled => (r, Except.ok ReceiptStatus.cancelled)
  | some ReceiptStatus.issued =>
      (fun v => if v = u then some ReceiptStatus.cancelled else r v,
        Except.ok ReceiptStatus.cancelled)

theorem cancel_receipt_issued (r : RemoteReceipts) (u : List Char)
    (h : r u = some ReceiptStatus.issued) :
    cancel_receipt r u =
      (fun v => if v = u then some ReceiptStatus.cancelled else r v,
        Except.ok ReceiptStatus.cancelled) := by
  unfold cancel_receipt
  rw [h]

theorem cancel_receipt_cancelled (r : RemoteReceipts) (u : List Char)
    (h : r u = some ReceiptStatus.cancelled) :
    cancel_receipt r u = (r, Except.ok ReceiptStatus.cancelled) := by
  unfold cancel_receipt
  rw [h]

/-- C9: for a previously issued receipt UUID, the first cancel invalidates it
(its state becomes cancelled and the call reports the cancelled state), and
cancelling the same UUID again reports the existing cancelled state without
error and without changing the remote state. -/
theorem C9_cancel_idempotent (r : RemoteReceipts) (u : List Char)
    (h : r u = some ReceiptStatus.issued) :
    (cancel_receipt r u).1 u = some ReceiptStatus.cancelled ∧
    (cancel_receipt r u).2 = Except.ok ReceiptStatus.cancelled ∧
    (cancel_receipt (cancel_receipt r u).1 u).2 =
      Except.ok ReceiptStatus.cancelled ∧
    (cancel_receipt (cancel_receipt r u).1 u).1 = (cancel_receipt r u).1 := by
  have hc := cancel_receipt_issued r u h
  have h1 : (cancel_receipt r u).1 u = some ReceiptStatus.cancelled := by
    rw [hc]
    simp
  have hc2 := cancel_receipt_cancelled (cancel_receipt r u).1 u h1
  exact ⟨h1, by rw [hc], by rw [hc2], by rw [hc2]⟩

/-- The demo receipt UUID `"demo-receipt-uuid-123"`. -/
def demoUuid : List Char :=
  ['d', 'e', 'm', 'o', '-', 'r', 'e', 'c', 'e', 'i', 'p', 't', '-',
    'u', 'u', 'i', 'd', '-', '1', '2', '3']

/-- A remote state in which exactly the demo receipt has been issued. -/
def demoRemote : RemoteReceipts :=
  fun v => if v = demoUuid then some ReceiptStatus.issued else none

/-- C9 witness: cancelling the issued demo receipt invalidates it, and a
second cancel reports the cancelled state without error or state change. -/
theorem C9_cancel_idempotent_witness :
    (cancel_receipt demoRemote demoUuid).1 demoUuid =
      some ReceiptStatus.cancelled ∧
    (cancel_receipt demoRemote demoUuid).2 =
      Except.ok ReceiptStatus.cancelled ∧
    (cancel_receipt (cancel_receipt demoRemote demoUuid).1 demoUuid).2 =
      Except.ok ReceiptStatus.cancelled ∧
    (cancel_receipt (cancel_receipt demoRemote demoUuid).1 demoUuid).1 =
      (cancel_receipt demoRemote demoUuid).1 :=
  C9_cancel_idempotent demoRemote demoUuid (by simp [demoRemote])

/-- Modelled from the spec and both demo call sites: `Receipt.print_url(uuid)`
synthesizes the printable URL locally from the API base and the UUID.  The
second component counts network suspensions: `print_url` performs none, which
is why both demo scripts call it without `await`. -/
def ReceiptApi.print_url (base uuid : List Char) : List Char × Nat :=
  (base ++ uuid, 0)

/-- Modelled from the spec and both demo call sites: `Receipt.json(uuid)` is a
fresh remote fetch of the canonical receipt data — one network suspension,
awaited in the demos. -/
def ReceiptApi.json (fetch : List Char → Json) (uuid : List Char) :
    Json × Nat :=
  (fetch uuid, 1)

/-- C10: `print_url(uuid)` is synchronous — it returns the printable URL with
zero network suspensions, for every UUID — in contrast to `json(uuid)`, which
performs a network fetch (one suspension) and must be awaited. -/
theorem C10_print_url_synchronous (base uuid : List Char)
    (fetch : List Char → Json) :
    (ReceiptApi.print_url base uuid).2 = 0 ∧
    (ReceiptApi.print_url base uuid).1 = base ++ uuid ∧
    (ReceiptApi.json fetch uuid).2 = 1 :=
  ⟨rfl, rfl, rfl⟩

end NaloGO
